import Mathlib

/-!
A shallow embedding of the booking-service core (`src/main.py`).
The SQLAlchemy models become Lean structures, the SQLite store becomes an
explicit `Store` value threaded through the handlers, and `datetime`
values become natural numbers counting minutes (the code only compares
datetimes and adds minute-valued durations to them, so this is faithful).
Each route handler becomes a pure function from the store (plus the
request data) to a response together with the updated store.
-/

/-- Embeds the SQLAlchemy model `Resource`: columns `id` (autoincrement
primary key), `name`, `type` (renamed `rtype`, `type` is reserved in Lean)
and `is_active`. -/
structure Resource where
  id : Nat
  name : String
  rtype : String
  is_active : Bool
deriving Repr, DecidableEq

/-- Embeds the SQLAlchemy model `Booking`: columns `id` (autoincrement
primary key), `resource_id`, `customer_name`, `start_at`, `end_at`,
`status` (a free-form string, `"active"` or `"canceled"` in practice) and
`created_at`. -/
structure Booking where
  id : Nat
  resource_id : Nat
  customer_name : String
  start_at : Nat
  end_at : Nat
  status : String
  created_at : Nat
deriving Repr, DecidableEq

/-- The SQLite database: the two tables in insertion order plus the next
autoincrement id for each (SQLite rowids start at 1). -/
structure Store where
  resources : List Resource
  bookings : List Booking
  next_resource_id : Nat
  next_booking_id : Nat
deriving Repr, DecidableEq

/-- The freshly created database (`Base.metadata.create_all`). -/
def emptyStore : Store := ⟨[], [], 1, 1⟩

/-- Embeds the pydantic schema `BookingCreate`. -/
structure BookingCreate where
  resource_id : Nat
  customer_name : String
  start_at : Nat
  end_at : Nat
deriving Repr, DecidableEq

/-- Embeds the `check_dates` field validator on `BookingCreate`: it raises
(returns `false` here) exactly when `end_at <= start_at`. -/
def check_dates (req : BookingCreate) : Bool :=
  decide (req.start_at < req.end_at)

/-- The error outcomes of the booking routes. The source raises
`HTTPException`s; pydantic validation failure surfaces as a 422. Note the
source uses one single 400 error for both a missing and an inactive
resource (`"Resource not found or inactive"`). -/
inductive ApiError where
  | invalidInput
  | notFoundOrInactive
  | conflict
  | notFound
deriving Repr, DecidableEq

/-- Embeds `create_resource` (POST /resources). -/
def create_resource (s : Store) (name rtype : String) (is_active : Bool) :
    Resource × Store :=
  let r : Resource := ⟨s.next_resource_id, name, rtype, is_active⟩
  (r, { s with resources := s.resources ++ [r],
                next_resource_id := s.next_resource_id + 1 })

/-- The conflict filter of `create_booking`: same resource, status
`"active"`, and the half-open overlap test
`Booking.start_at < booking.end_at AND Booking.end_at > booking.start_at`. -/
def conflictsWith (req : BookingCreate) (b : Booking) : Bool :=
  decide (b.resource_id = req.resource_id) && decide (b.status = "active") &&
  decide (b.start_at < req.end_at) && decide (b.end_at > req.start_at)

/-- Embeds the body of `create_booking` (POST /bookings) after pydantic
validation: resolve the resource (`first()` on the filtered table), reject
with the combined 400 if it is absent or inactive, reject with 409 if the
conflict query finds a row, else insert the new booking with status
`"active"` and `created_at = now`. -/
def create_booking (s : Store) (now : Nat) (req : BookingCreate) :
    Except ApiError Booking × Store :=
  match s.resources.find? (fun r => decide (r.id = req.resource_id)) with
  | none => (.error .notFoundOrInactive, s)
  | some r =>
    if r.is_active = false then (.error .notFoundOrInactive, s)
    else
      match s.bookings.find? (conflictsWith req) with
      | some _ => (.error .conflict, s)
      | none =>
        let nb : Booking := ⟨s.next_booking_id, req.resource_id,
          req.customer_name, req.start_at, req.end_at, "active", now⟩
        (.ok nb, { s with bookings := s.bookings ++ [nb],
                          next_booking_id := s.next_booking_id + 1 })

/-- The full POST /bookings pipeline: pydantic runs `check_dates` before
the handler touches the store. -/
def create_booking_endpoint (s : Store) (now : Nat) (req : BookingCreate) :
    Except ApiError Booking × Store :=
  if check_dates req = false then (.error .invalidInput, s)
  else create_booking s now req

/-- Embeds `cancel_booking` (POST /bookings/{id}/cancel): resolve the
booking by id (404 if absent), set `status = "canceled"`, return the
updated row. The in-place ORM mutation becomes a map over the table that
rewrites the row(s) with that primary key; `cancelUpd` is that rewrite. -/
def cancelUpd (bid : Nat) (x : Booking) : Booking :=
  if x.id = bid then { x with status := "canceled" } else x

/-- The route body of `cancel_booking`. -/
def cancel_booking (s : Store) (bid : Nat) : Except ApiError Booking × Store :=
  match s.bookings.find? (fun b => decide (b.id = bid)) with
  | none => (.error .notFound, s)
  | some b =>
    (.ok { b with status := "canceled" },
     { s with bookings := s.bookings.map (cancelUpd bid) })

/-- Embeds `get_bookings` (GET /bookings). Each filter is applied only when
the query parameter is truthy in Python: `None` and `0` skip the
`resource_id` filter, `None` and `""` skip the `status` filter, while a
`datetime` value is always truthy. The final `order_by(Booking.start_at)`
becomes a merge sort by `start_at` (stable, like SQLite's sorter).
`filterByResource` is the `if resource_id:` stage (0 is falsy). -/
def filterByResource (resource_id : Option Nat) (q : List Booking) :
    List Booking :=
  match resource_id with
  | none => q
  | some r => if r = 0 then q else q.filter (fun b => decide (b.resource_id = r))

/-- The `if date_from:` stage (a datetime is always truthy in Python). -/
def filterByDateFrom (date_from : Option Nat) (q : List Booking) : List Booking :=
  match date_from with
  | none => q
  | some d => q.filter (fun b => decide (d ≤ b.start_at))

/-- The `if date_to:` stage. -/
def filterByDateTo (date_to : Option Nat) (q : List Booking) : List Booking :=
  match date_to with
  | none => q
  | some d => q.filter (fun b => decide (b.end_at ≤ d))

/-- The `if status:` stage (the empty string is falsy in Python). -/
def filterByStatus (status : Option String) (q : List Booking) : List Booking :=
  match status with
  | none => q
  | some st => if st = "" then q else q.filter (fun b => decide (b.status = st))

/-- The route body of `get_bookings`: the four filter stages in source
order, then `order_by(Booking.start_at)`. -/
def get_bookings (s : Store) (resource_id : Option Nat)
    (date_from date_to : Option Nat) (status : Option String) : List Booking :=
  (filterByStatus status (filterByDateTo date_to (filterByDateFrom date_from
    (filterByResource resource_id s.bookings)))).mergeSort
    (fun a b => decide (a.start_at ≤ b.start_at))

/-- The booking query of `get_availability`: active bookings of the
resource whose interval meets the working window, ordered by `start_at`. -/
def availabilityQuery (s : Store) (rid day_start day_end : Nat) : List Booking :=
  (s.bookings.filter (fun b =>
      decide (b.resource_id = rid) && decide (b.status = "active") &&
      decide (b.end_at > day_start) && decide (b.start_at < day_end))).mergeSort
    (fun a b => decide (a.start_at ≤ b.start_at))

/-- The `is_free` computation of the slot loop: a candidate slot
`[cur, slot_end)` is free unless some loaded booking satisfies
`current_slot < b.end_at and slot_end > b.start_at`. -/
def is_free (bs : List Booking) (cur slot_end : Nat) : Bool :=
  !(bs.any (fun b => decide (cur < b.end_at) && decide (slot_end > b.start_at)))

/-- The slot-partition loop of `get_availability`, recording only the slot
start times: `while current_slot + slot_minutes <= day_end`. The source
never checks `slot_minutes > 0`; the loop diverges for `slot_minutes = 0`,
so totality here needs the positivity conjunct in the guard (for positive
`slot_minutes` the guard is exactly the source's condition). -/
def slotLoop (slot_minutes day_end cur : Nat) : List Nat :=
  if _h : 0 < slot_minutes ∧ cur + slot_minutes ≤ day_end then
    cur :: slotLoop slot_minutes day_end (cur + slot_minutes)
  else []
termination_by day_end - cur
decreasing_by omega

/-- The full availability loop of `get_availability`: emit the candidate
slot `[cur, cur + slot_minutes)` when `is_free`, then advance by
`slot_minutes`. Same totality guard as `slotLoop`. -/
def availLoop (slot_minutes day_end : Nat) (bs : List Booking) (cur : Nat) :
    List (Nat × Nat) :=
  if _h : 0 < slot_minutes ∧ cur + slot_minutes ≤ day_end then
    if is_free bs cur (cur + slot_minutes) then
      (cur, cur + slot_minutes) :: availLoop slot_minutes day_end bs (cur + slot_minutes)
    else availLoop slot_minutes day_end bs (cur + slot_minutes)
  else []
termination_by day_end - cur
decreasing_by all_goals omega

/-- Embeds `get_availability` (GET /resources/{id}/availability) after the
date/time parsing succeeded: `day_start`/`day_end` are the parsed
`date + work_start` and `date + work_end` instants in minutes. Returns the
`available_slots` list as (start, end) pairs. -/
def get_availability (s : Store) (rid day_start day_end slot_minutes : Nat) :
    List (Nat × Nat) :=
  availLoop slot_minutes day_end (availabilityQuery s rid day_start day_end) day_start

/-- The operations reachable through the API that touch the bookings
table, for stating store invariants. -/
inductive Op where
  | createResource (name rtype : String) (is_active : Bool)
  | createBooking (now : Nat) (req : BookingCreate)
  | cancelBooking (bid : Nat)
deriving Repr, DecidableEq

/-- The store after one API call (the response is dropped). -/
def applyOp (s : Store) : Op → Store
  | .createResource name rtype act => (create_resource s name rtype act).2
  | .createBooking now req => (create_booking_endpoint s now req).2
  | .cancelBooking bid => (cancel_booking s bid).2

/-- The store after a sequence of API calls against the fresh database. -/
def runOps (ops : List Op) : Store :=
  ops.foldl applyOp emptyStore

/-- The no-double-booking relation between two bookings: if they are on
the same resource and both active, their half-open intervals do not
overlap. -/
def activeNoOverlap (b1 b2 : Booking) : Prop :=
  b1.resource_id = b2.resource_id → b1.status = "active" → b2.status = "active" →
  ¬(b1.start_at < b2.end_at ∧ b2.start_at < b1.end_at)

/-- The spec's ListBookings filter predicate, written from the spec's
words for comparison with `get_bookings`: a booking matches when every
provided filter holds (`resource_id` equal, `start_at ≥ date_from`,
`end_at ≤ date_to`, `status` equal; AND semantics). -/
def matchesFilters (resource_id : Option Nat) (date_from date_to : Option Nat)
    (status : Option String) (b : Booking) : Bool :=
  (match resource_id with | none => true | some r => decide (b.resource_id = r)) &&
  (match date_from with | none => true | some d => decide (d ≤ b.start_at)) &&
  (match date_to with | none => true | some d => decide (b.end_at ≤ d)) &&
  (match status with | none => true | some st => decide (b.status = st))

/-- One active resource, freshly created. -/
def demoStore1 : Store := (create_resource emptyStore "Room A" "room" true).2

/-- 10:00-11:00 (in minutes of the day) on resource 1. -/
def demoReq1 : BookingCreate := ⟨1, "alice", 600, 660⟩

/-- 10:30-10:45, fully nested inside `demoReq1`. -/
def demoReq2 : BookingCreate := ⟨1, "bob", 630, 645⟩

/-- 11:00-12:00, back-to-back with `demoReq1`. -/
def demoReq3 : BookingCreate := ⟨1, "carol", 660, 720⟩

/-- The store after `demoReq1` was accepted. -/
def demoStore2 : Store := (create_booking_endpoint demoStore1 0 demoReq1).2

/-- One inactive resource, freshly created. -/
def inactiveStore : Store := (create_resource emptyStore "Room" "room" false).2

/-- A well-formed booking request for resource 1. -/
def missingReq : BookingCreate := ⟨1, "dana", 0, 10⟩

/-- A demo sequence of API calls: create a resource, two accepted
bookings and one rejected (nested) booking. -/
def demoOps : List Op :=
  [Op.createResource "Room" "room" true,
   Op.createBooking 0 ⟨1, "a", 600, 660⟩,
   Op.createBooking 0 ⟨1, "b", 630, 645⟩,
   Op.createBooking 0 ⟨1, "c", 660, 720⟩]

/-- A store holding exactly one booking, on resource 1. -/
def demoStoreB : Store :=
  runOps [Op.createResource "Room" "room" true, Op.createBooking 7 ⟨1, "erin", 100, 200⟩]

/-- The single booking stored in `demoStoreB`. -/
def demoBooking : Booking := ⟨1, 1, "erin", 100, 200, "active", 7⟩

lemma cancelUpd_id (bid : Nat) (x : Booking) : (cancelUpd bid x).id = x.id := by
  unfold cancelUpd
  split <;> rfl

lemma cancelUpd_idem (bid : Nat) (x : Booking) :
    cancelUpd bid (cancelUpd bid x) = cancelUpd bid x := by
  unfold cancelUpd
  by_cases h : x.id = bid <;> simp [h]

lemma cancelUpd_keeps_fields (bid : Nat) (x : Booking) :
    (cancelUpd bid x).id = x.id ∧
    (cancelUpd bid x).resource_id = x.resource_id ∧
    (cancelUpd bid x).customer_name = x.customer_name ∧
    (cancelUpd bid x).start_at = x.start_at ∧
    (cancelUpd bid x).end_at = x.end_at ∧
    (cancelUpd bid x).created_at = x.created_at := by
  unfold cancelUpd
  split <;> simp

lemma cancelUpd_status (bid : Nat) (x : Booking) :
    (x.id = bid → (cancelUpd bid x).status = "canceled") ∧
    (x.id ≠ bid → cancelUpd bid x = x) := by
  unfold cancelUpd
  by_cases h : x.id = bid <;> simp [h]

/-- C5: with `end_at ≤ start_at` the request is rejected as invalid input
by the `check_dates` validator, before the handler runs: the store is
unchanged and the outcome is the same for every store. -/
theorem createBooking_invalid_dates (s : Store) (now : Nat) (req : BookingCreate)
    (h : req.end_at ≤ req.start_at) :
    (create_booking_endpoint s now req).1 = .error .invalidInput ∧
    (create_booking_endpoint s now req).2 = s ∧
    ∀ s' : Store, (create_booking_endpoint s' now req).1 = .error .invalidInput := by
  have hc : check_dates req = false := by
    simp only [check_dates, decide_eq_false_iff_not]
    omega
  refine ⟨?_, ?_, fun s' => ?_⟩ <;> simp [create_booking_endpoint, hc]

/-- Witness for C5 at a concrete degenerate request. -/
theorem createBooking_invalid_dates_witness :
    (create_booking_endpoint demoStore1 0 ⟨1, "zoe", 50, 50⟩).1 =
      .error .invalidInput ∧
    (create_booking_endpoint demoStore1 0 ⟨1, "zoe", 50, 50⟩).2 = demoStore1 :=
  ⟨(createBooking_invalid_dates demoStore1 0 ⟨1, "zoe", 50, 50⟩ (by decide)).1,
   (createBooking_invalid_dates demoStore1 0 ⟨1, "zoe", 50, 50⟩ (by decide)).2.1⟩

/-- C10: a falsy provided filter value is treated as if the filter were
absent: `resource_id = some 0` and `status = some ""` each query exactly
as `none` does, for every store and every other filter. -/
theorem getBookings_falsy_filters (s : Store) (date_from date_to : Option Nat)
    (status : Option String) (resource_id : Option Nat) :
    get_bookings s (some 0) date_from date_to status =
      get_bookings s none date_from date_to status ∧
    get_bookings s resource_id date_from date_to (some "") =
      get_bookings s resource_id date_from date_to none := by
  constructor <;> rfl

/-- C4 (amended): when the resource is absent, or present but inactive,
`create_booking` fails with the single combined 400 error
`"Resource not found or inactive"` and leaves the store unchanged; the
code does not produce two distinct error kinds for the two cases. -/
theorem createBooking_combined_error (s : Store) (now : Nat) (req : BookingCreate)
    (hv : check_dates req = true)
    (h : s.resources.find? (fun r => decide (r.id = req.resource_id)) = none ∨
      ∃ r, s.resources.find? (fun r1 => decide (r1.id = req.resource_id)) = some r ∧
        r.is_active = false) :
    (create_booking_endpoint s now req).1 = .error .notFoundOrInactive ∧
    (create_booking_endpoint s now req).2 = s := by
  rcases h with h | ⟨r, hr, hact⟩
  · simp [create_booking_endpoint, create_booking, hv, h]
  · simp [create_booking_endpoint, create_booking, hv, hr, hact]

/-- Witness for C4 (amended) at an inactive concrete resource. -/
theorem createBooking_combined_error_witness :
    (create_booking_endpoint inactiveStore 0 missingReq).1 =
      .error .notFoundOrInactive ∧
    (create_booking_endpoint inactiveStore 0 missingReq).2 = inactiveStore :=
  createBooking_combined_error inactiveStore 0 missingReq (by decide)
    (Or.inr ⟨⟨1, "Room", "room", false⟩, by decide, by decide⟩)

/-- Counterexample to C4 as stated: the missing-resource failure and the
inactive-resource failure produce the very same error value, so the two
failure kinds are not distinguishable by the caller. -/
theorem createBooking_error_not_distinct :
    (create_booking_endpoint emptyStore 0 missingReq).1 =
      (create_booking_endpoint inactiveStore 0 missingReq).1 ∧
    (create_booking_endpoint emptyStore 0 missingReq).1 =
      .error .notFoundOrInactive :=
  ⟨rfl, rfl⟩

/-- C6: canceling an id that resolves, twice, succeeds both times, the
second call returns the same (already canceled) booking and leaves the
store exactly as after the first call, and the returned status is
`"canceled"`. -/
theorem cancelBooking_idempotent (s : Store) (bid : Nat) (b0 : Booking)
    (h : s.bookings.find? (fun b => decide (b.id = bid)) = some b0) :
    ∃ b : Booking,
      (cancel_booking s bid).1 = .ok b ∧
      (cancel_booking (cancel_booking s bid).2 bid).1 = .ok b ∧
      (cancel_booking (cancel_booking s bid).2 bid).2 = (cancel_booking s bid).2 ∧
      b.status = "canceled" := by
  have hps := List.find?_some h
  have hid : b0.id = bid := of_decide_eq_true hps
  have hpf : (fun x => decide ((cancelUpd bid x).id = bid)) =
      (fun b : Booking => decide (b.id = bid)) := by
    funext x
    rw [cancelUpd_id]
  have hfind2 : (s.bookings.map (cancelUpd bid)).find?
      (fun b => decide (b.id = bid)) = some (cancelUpd bid b0) := by
    rw [List.find?_map]
    show Option.map (cancelUpd bid)
      (s.bookings.find? (fun x => decide ((cancelUpd bid x).id = bid))) = _
    rw [hpf, h]
    rfl
  have hupd : cancelUpd bid b0 = { b0 with status := "canceled" } := by
    unfold cancelUpd
    rw [if_pos hid]
  refine ⟨{ b0 with status := "canceled" }, ?_, ?_, ?_, rfl⟩
  · simp [cancel_booking, h]
  · simp only [cancel_booking, h, hfind2, hupd]
  · simp only [cancel_booking, h, hfind2]
    simp only [List.map_map, Store.mk.injEq]
    refine ⟨by trivial, ?_, by trivial, by trivial⟩
    refine List.map_congr_left (fun a _ => ?_)
    show cancelUpd bid (cancelUpd bid a) = cancelUpd bid a
    exact cancelUpd_idem bid a

/-- Witness for C6 on a concrete stored booking. -/
theorem cancelBooking_idempotent_witness :
    ∃ b : Booking,
      (cancel_booking demoStoreB 1).1 = .ok b ∧
      (cancel_booking (cancel_booking demoStoreB 1).2 1).1 = .ok b ∧
      (cancel_booking (cancel_booking demoStoreB 1).2 1).2 =
        (cancel_booking demoStoreB 1).2 ∧
      b.status = "canceled" :=
  cancelBooking_idempotent demoStoreB 1 demoBooking (by decide)

/-- C7: canceling a booking that resolves rewrites only the status of the
row(s) with that id to `"canceled"`: resources, id counters and the table
length are untouched, every row keeps its `id`, `resource_id`,
`customer_name`, `start_at`, `end_at` and `created_at`, and every row with
a different id is completely unchanged. -/
theorem cancelBooking_frame (s : Store) (bid : Nat) (b0 : Booking)
    (h : s.bookings.find? (fun b => decide (b.id = bid)) = some b0) :
    (cancel_booking s bid).2.resources = s.resources ∧
    (cancel_booking s bid).2.next_resource_id = s.next_resource_id ∧
    (cancel_booking s bid).2.next_booking_id = s.next_booking_id ∧
    (cancel_booking s bid).2.bookings.length = s.bookings.length ∧
    ∀ (i : Nat) (old : Booking), s.bookings[i]? = some old →
      ∃ nw : Booking, (cancel_booking s bid).2.bookings[i]? = some nw ∧
        nw.id = old.id ∧ nw.resource_id = old.resource_id ∧
        nw.customer_name = old.customer_name ∧ nw.start_at = old.start_at ∧
        nw.end_at = old.end_at ∧ nw.created_at = old.created_at ∧
        (old.id = bid → nw.status = "canceled") ∧
        (old.id ≠ bid → nw = old) := by
  have hb : (cancel_booking s bid).2.bookings = s.bookings.map (cancelUpd bid) := by
    simp [cancel_booking, h]
  refine ⟨by simp [cancel_booking, h], by simp [cancel_booking, h],
    by simp [cancel_booking, h], by rw [hb]; simp, ?_⟩
  intro i old hold
  refine ⟨cancelUpd bid old, ?_, (cancelUpd_keeps_fields bid old).1,
    (cancelUpd_keeps_fields bid old).2.1, (cancelUpd_keeps_fields bid old).2.2.1,
    (cancelUpd_keeps_fields bid old).2.2.2.1,
    (cancelUpd_keeps_fields bid old).2.2.2.2.1,
    (cancelUpd_keeps_fields bid old).2.2.2.2.2,
    (cancelUpd_status bid old).1, (cancelUpd_status bid old).2⟩
  rw [hb, List.getElem?_map, hold]
  rfl

/-- Witness for C7 on the concrete store `demoStoreB`. -/
theorem cancelBooking_frame_witness :
    ∃ nw : Booking, (cancel_booking demoStoreB 1).2.bookings[0]? = some nw ∧
      nw.id = demoBooking.id ∧ nw.resource_id = demoBooking.resource_id ∧
      nw.customer_name = demoBooking.customer_name ∧
      nw.start_at = demoBooking.start_at ∧
      nw.end_at = demoBooking.end_at ∧ nw.created_at = demoBooking.created_at ∧
      (demoBooking.id = 1 → nw.status = "canceled") ∧
      (demoBooking.id ≠ 1 → nw = demoBooking) :=
  (cancelBooking_frame demoStoreB 1 demoBooking (by decide)).2.2.2.2 0
    demoBooking (by decide)

/-- C2: once the request is valid and the resource resolves as active,
`create_booking` rejects with Conflict exactly when some stored booking on
the same resource with status `"active"` passes the half-open overlap
test, and the store is unchanged on such a rejection; concretely, after
10:00-11:00 is booked, the nested 10:30-10:45 request is rejected with
Conflict (store untouched) while the back-to-back 11:00-12:00 request is
accepted. -/
theorem createBooking_conflict_iff (s : Store) (now : Nat) (req : BookingCreate)
    (hv : check_dates req = true) (r : Resource)
    (hr : s.resources.find? (fun x => decide (x.id = req.resource_id)) = some r)
    (hact : r.is_active = true) :
    ((create_booking_endpoint s now req).1 = .error .conflict ↔
      ∃ b ∈ s.bookings, b.resource_id = req.resource_id ∧ b.status = "active" ∧
        b.start_at < req.end_at ∧ b.end_at > req.start_at) ∧
    ((create_booking_endpoint s now req).1 = .error .conflict →
      (create_booking_endpoint s now req).2 = s) ∧
    (create_booking_endpoint demoStore1 0 demoReq1).1 =
      .ok ⟨1, 1, "alice", 600, 660, "active", 0⟩ ∧
    (create_booking_endpoint demoStore2 0 demoReq2).1 = .error .conflict ∧
    (create_booking_endpoint demoStore2 0 demoReq2).2 = demoStore2 ∧
    (create_booking_endpoint demoStore2 0 demoReq3).1 =
      .ok ⟨2, 1, "carol", 660, 720, "active", 0⟩ := by
  refine ⟨?_, ?_, rfl, rfl, rfl, rfl⟩
  · cases hc : s.bookings.find? (conflictsWith req) with
    | none =>
      simp only [create_booking_endpoint, create_booking, hv, hr, hact, hc]
      constructor
      · intro hab
        exact Except.noConfusion hab
      · rintro ⟨b, hb, h1, h2, h3, h4⟩
        have hnc := (List.find?_eq_none.mp hc) b hb
        exact absurd (by simp [conflictsWith, h1, h2, h3, h4]) hnc
    | some c =>
      simp only [create_booking_endpoint, create_booking, hv, hr, hact, hc]
      refine iff_of_true rfl ?_
      have hcm := List.mem_of_find?_eq_some hc
      have hcp := List.find?_some hc
      simp only [conflictsWith, Bool.and_eq_true, decide_eq_true_eq] at hcp
      exact ⟨c, hcm, hcp.1.1.1, hcp.1.1.2, hcp.1.2, hcp.2⟩
  · intro hconf
    cases hc : s.bookings.find? (conflictsWith req) with
    | none =>
      exfalso
      simp [create_booking_endpoint, create_booking, hv, hr, hact, hc] at hconf
    | some c =>
      simp [create_booking_endpoint, create_booking, hv, hr, hact, hc]

/-- Witness for C2 on the nested-conflict concrete instance. -/
theorem createBooking_conflict_iff_witness :
    ((create_booking_endpoint demoStore2 0 demoReq2).1 = .error .conflict ↔
      ∃ b ∈ demoStore2.bookings, b.resource_id = demoReq2.resource_id ∧
        b.status = "active" ∧ b.start_at < demoReq2.end_at ∧
        b.end_at > demoReq2.start_at) ∧
    ((create_booking_endpoint demoStore2 0 demoReq2).1 = .error .conflict →
      (create_booking_endpoint demoStore2 0 demoReq2).2 = demoStore2) ∧
    (create_booking_endpoint demoStore1 0 demoReq1).1 =
      .ok ⟨1, 1, "alice", 600, 660, "active", 0⟩ ∧
    (create_booking_endpoint demoStore2 0 demoReq2).1 = .error .conflict ∧
    (create_booking_endpoint demoStore2 0 demoReq2).2 = demoStore2 ∧
    (create_booking_endpoint demoStore2 0 demoReq3).1 =
      .ok ⟨2, 1, "carol", 660, 720, "active", 0⟩ :=
  createBooking_conflict_iff demoStore2 0 demoReq2 (by decide)
    ⟨1, "Room A", "room", true⟩ (by decide) (by decide)

lemma slotLoop_eq_range (slot day_end : Nat) (hpos : 0 < slot) :
    ∀ (fuel cur : Nat), day_end - cur ≤ fuel →
      slotLoop slot day_end cur =
        (List.range ((day_end - cur) / slot)).map (fun i => cur + i * slot) := by
  intro fuel
  induction fuel with
  | zero =>
    intro cur hf
    rw [slotLoop, dif_neg (by omega)]
    have h0 : day_end - cur = 0 := by omega
    simp [h0]
  | succ n ih =>
    intro cur hf
    rw [slotLoop]
    by_cases hg : cur + slot ≤ day_end
    · rw [dif_pos ⟨hpos, hg⟩, ih (cur + slot) (by omega)]
      have hdiv : (day_end - cur) / slot = (day_end - (cur + slot)) / slot + 1 := by
        have h2 : day_end - cur = (day_end - (cur + slot)) + slot := by omega
        rw [h2, Nat.add_div_right _ hpos]
      rw [hdiv, List.range_succ_eq_map]
      simp only [List.map_cons, List.map_map]
      congr 1
      · simp
      · refine List.map_congr_left fun i _ => ?_
        show cur + slot + i * slot = cur + Nat.succ i * slot
        rw [Nat.succ_mul]
        omega
    · rw [dif_neg (fun hcontra => hg hcontra.2)]
      have h0 : (day_end - cur) / slot = 0 := Nat.div_eq_of_lt (by omega)
      simp [h0]

lemma slotLoop_spec (slot day_end cur : Nat) (hpos : 0 < slot) :
    slotLoop slot day_end cur =
      (List.range ((day_end - cur) / slot)).map (fun i => cur + i * slot) :=
  slotLoop_eq_range slot day_end hpos (day_end - cur) cur le_rfl

lemma availLoop_eq_filter (slot day_end : Nat) (bs : List Booking) (hpos : 0 < slot) :
    ∀ (fuel cur : Nat), day_end - cur ≤ fuel →
      availLoop slot day_end bs cur =
        ((slotLoop slot day_end cur).map (fun c => (c, c + slot))).filter
          (fun p => is_free bs p.1 p.2) := by
  intro fuel
  induction fuel with
  | zero =>
    intro cur hf
    rw [availLoop, slotLoop, dif_neg (by omega), dif_neg (by omega)]
    rfl
  | succ n ih =>
    intro cur hf
    rw [availLoop, slotLoop]
    by_cases hg : cur + slot ≤ day_end
    · rw [dif_pos ⟨hpos, hg⟩, dif_pos ⟨hpos, hg⟩, ih (cur + slot) (by omega)]
      by_cases hfree : is_free bs cur (cur + slot) = true
      · simp only [hfree, if_true, List.map_cons, List.filter_cons]
      · rw [Bool.not_eq_true] at hfree
        simp only [hfree, List.map_cons, List.filter_cons]
    · rw [dif_neg (fun hcontra => hg hcontra.2),
        dif_neg (fun hcontra => hg hcontra.2)]
      rfl

lemma get_availability_eq (s : Store) (rid day_start day_end slot : Nat)
    (hpos : 0 < slot) :
    get_availability s rid day_start day_end slot =
      ((List.range ((day_end - day_start) / slot)).map
        (fun i => (day_start + i * slot, day_start + i * slot + slot))).filter
        (fun p => is_free (availabilityQuery s rid day_start day_end) p.1 p.2) := by
  unfold get_availability
  rw [availLoop_eq_filter slot day_end _ hpos (day_end - day_start) day_start le_rfl,
    slotLoop_spec _ _ _ hpos, List.map_map]
  rfl

lemma is_free_iff (bs : List Booking) (cur slot_end : Nat) :
    is_free bs cur slot_end = true ↔
      ∀ b ∈ bs, ¬(cur < b.end_at ∧ b.start_at < slot_end) := by
  simp only [is_free, Bool.not_eq_true', List.any_eq_false, Bool.and_eq_true,
    decide_eq_true_eq, not_and]

/-- C9: for positive `slot_minutes` the slot-partition loop terminates
after exactly `(day_end - day_start) / slot_minutes` iterations (zero of
them when `day_end ≤ day_start`), and the emitted availability list is no
longer than that bound; the source never checks positivity, which the
totality guard of `slotLoop`/`availLoop` makes explicit. -/
theorem slotLoop_termination_bound (slot_minutes day_start day_end : Nat)
    (bs : List Booking) (hpos : 0 < slot_minutes) :
    (slotLoop slot_minutes day_end day_start).length =
      (day_end - day_start) / slot_minutes ∧
    (day_end ≤ day_start → slotLoop slot_minutes day_end day_start = []) ∧
    (availLoop slot_minutes day_end bs day_start).length ≤
      (day_end - day_start) / slot_minutes := by
  refine ⟨?_, ?_, ?_⟩
  · rw [slotLoop_spec _ _ _ hpos]
    simp
  · intro hle
    rw [slotLoop_spec _ _ _ hpos]
    have h0 : day_end - day_start = 0 := by omega
    simp [h0]
  · rw [availLoop_eq_filter _ _ _ hpos _ _ le_rfl]
    refine le_trans (List.length_filter_le _ _) ?_
    rw [List.length_map, slotLoop_spec _ _ _ hpos]
    simp

/-- Witness for C9 on the default 09:00-18:00 window with 30-minute
slots. -/
theorem slotLoop_termination_bound_witness :
    (slotLoop 30 1080 540).length = (1080 - 540) / 30 ∧
    (1080 ≤ 540 → slotLoop 30 1080 540 = []) ∧
    (availLoop 30 1080 [] 540).length ≤ (1080 - 540) / 30 :=
  slotLoop_termination_bound 30 540 1080 [] (by decide)

/-- C3: for positive `slot_minutes` the availability computation returns,
in chronological order, exactly the consecutive `slot_minutes`-long
candidate slots starting at `day_start` (one per index below
`(day_end - day_start) / slot_minutes`, so any trailing partial slot is
dropped) that overlap no loaded active booking under the half-open test;
on the empty schedule over 09:00-18:00 with 30-minute slots it returns
exactly 18 slots, each 30 minutes, the first starting at 09:00 (minute
540) and the last ending at 18:00 (minute 1080). -/
theorem get_availability_spec (s : Store) (rid day_start day_end slot_minutes : Nat)
    (hpos : 0 < slot_minutes) :
    (get_availability s rid day_start day_end slot_minutes =
      ((List.range ((day_end - day_start) / slot_minutes)).map
        (fun i => (day_start + i * slot_minutes,
          day_start + i * slot_minutes + slot_minutes))).filter
        (fun p => is_free (availabilityQuery s rid day_start day_end) p.1 p.2)) ∧
    (∀ st en : Nat,
      (st, en) ∈ get_availability s rid day_start day_end slot_minutes ↔
        ((∃ i, i < (day_end - day_start) / slot_minutes ∧
            st = day_start + i * slot_minutes ∧ en = st + slot_minutes) ∧
          ∀ b ∈ availabilityQuery s rid day_start day_end,
            ¬(st < b.end_at ∧ b.start_at < en))) ∧
    List.Pairwise (fun p q : Nat × Nat => p.1 < q.1)
      (get_availability s rid day_start day_end slot_minutes) ∧
    (get_availability emptyStore 1 540 1080 30).length = 18 ∧
    (get_availability emptyStore 1 540 1080 30).head? = some (540, 570) ∧
    (get_availability emptyStore 1 540 1080 30).getLast? = some (1050, 1080) ∧
    ∀ p ∈ get_availability emptyStore 1 540 1080 30, p.2 = p.1 + 30 := by
  have h1 := get_availability_eq s rid day_start day_end slot_minutes hpos
  have hq : availabilityQuery emptyStore 1 540 1080 = [] := by
    simp [availabilityQuery, emptyStore]
  have h2 := get_availability_eq emptyStore 1 540 1080 30 (by norm_num)
  rw [hq] at h2
  refine ⟨h1, ?_, ?_, ?_, ?_, ?_, ?_⟩
  · intro st en
    rw [h1, List.mem_filter]
    simp only [List.mem_map, List.mem_range, Prod.mk.injEq]
    constructor
    · rintro ⟨⟨i, hi, hst, hen⟩, hfree⟩
      have hfree' : is_free (availabilityQuery s rid day_start day_end) st en =
          true := hfree
      rw [is_free_iff] at hfree'
      exact ⟨⟨i, hi, hst.symm, by omega⟩, hfree'⟩
    · rintro ⟨⟨i, hi, hst, hen⟩, hfree⟩
      refine ⟨⟨i, hi, hst.symm, by omega⟩, ?_⟩
      show is_free (availabilityQuery s rid day_start day_end) st en = true
      rw [is_free_iff]
      exact hfree
  · rw [h1]
    refine List.Pairwise.sublist (List.filter_sublist _) ?_
    rw [List.pairwise_map]
    refine (List.pairwise_lt_range _).imp ?_
    intro a b hab
    exact Nat.add_lt_add_left (mul_lt_mul_of_pos_right hab hpos) day_start
  · rw [h2]
    decide
  · rw [h2]
    decide
  · rw [h2]
    decide
  · rw [h2]
    decide

/-- Witness for C3 on the empty schedule over the default window. -/
theorem get_availability_spec_witness :
    (get_availability emptyStore 1 540 1080 30 =
      ((List.range ((1080 - 540) / 30)).map
        (fun i => (540 + i * 30, 540 + i * 30 + 30))).filter
        (fun p => is_free (availabilityQuery emptyStore 1 540 1080) p.1 p.2)) ∧
    (∀ st en : Nat,
      (st, en) ∈ get_availability emptyStore 1 540 1080 30 ↔
        ((∃ i, i < (1080 - 540) / 30 ∧
            st = 540 + i * 30 ∧ en = st + 30) ∧
          ∀ b ∈ availabilityQuery emptyStore 1 540 1080,
            ¬(st < b.end_at ∧ b.start_at < en))) ∧
    List.Pairwise (fun p q : Nat × Nat => p.1 < q.1)
      (get_availability emptyStore 1 540 1080 30) ∧
    (get_availability emptyStore 1 540 1080 30).length = 18 ∧
    (get_availability emptyStore 1 540 1080 30).head? = some (540, 570) ∧
    (get_availability emptyStore 1 540 1080 30).getLast? = some (1050, 1080) ∧
    ∀ p ∈ get_availability emptyStore 1 540 1080 30, p.2 = p.1 + 30 :=
  get_availability_spec emptyStore 1 540 1080 30 (by decide)

lemma nestedFilter_eq (l : List Booking) (q1 q2 q3 q4 : Booking → Bool) :
    List.filter q4 (List.filter q3 (List.filter q2 (List.filter q1 l))) =
      List.filter (fun b => q1 b && q2 b && q3 b && q4 b) l := by
  induction l with
  | nil => rfl
  | cons x xs ih =>
    cases h1 : q1 x <;> cases h2 : q2 x <;> cases h3 : q3 x <;> cases h4 : q4 x <;>
      simp [List.filter_cons, h1, h2, h3, h4, ih, -List.filter_filter]

lemma filterByResource_eq (resource_id : Option Nat) (h : resource_id ≠ some 0)
    (q : List Booking) :
    filterByResource resource_id q =
      q.filter (fun b => match resource_id with
        | none => true
        | some r => decide (b.resource_id = r)) := by
  rcases resource_id with _ | r
  · simp [filterByResource]
  · have hr : ¬r = 0 := fun h0 => h (by rw [h0])
    simp [filterByResource, hr]

lemma filterByDateFrom_eq (date_from : Option Nat) (q : List Booking) :
    filterByDateFrom date_from q =
      q.filter (fun b => match date_from with
        | none => true
        | some d => decide (d ≤ b.start_at)) := by
  rcases date_from with _ | d <;> simp [filterByDateFrom]

lemma filterByDateTo_eq (date_to : Option Nat) (q : List Booking) :
    filterByDateTo date_to q =
      q.filter (fun b => match date_to with
        | none => true
        | some d => decide (b.end_at ≤ d)) := by
  rcases date_to with _ | d <;> simp [filterByDateTo]

lemma filterByStatus_eq (status : Option String) (h : status ≠ some "")
    (q : List Booking) :
    filterByStatus status q =
      q.filter (fun b => match status with
        | none => true
        | some st => decide (b.status = st)) := by
  rcases status with _ | st
  · simp [filterByStatus]
  · have hs : ¬st = "" := fun h0 => h (by rw [h0])
    simp [filterByStatus, hs]

lemma get_bookings_eq (s : Store) (resource_id : Option Nat)
    (date_from date_to : Option Nat) (status : Option String)
    (hrid : resource_id ≠ some 0) (hst : status ≠ some "") :
    get_bookings s resource_id date_from date_to status =
      (s.bookings.filter
        (matchesFilters resource_id date_from date_to status)).mergeSort
        (fun a b => decide (a.start_at ≤ b.start_at)) := by
  unfold get_bookings
  rw [filterByResource_eq resource_id hrid, filterByDateFrom_eq,
    filterByDateTo_eq, filterByStatus_eq status hst, nestedFilter_eq]
  rfl

lemma bookingLe_trans : ∀ a b c : Booking,
    decide (a.start_at ≤ b.start_at) = true →
    decide (b.start_at ≤ c.start_at) = true →
    decide (a.start_at ≤ c.start_at) = true := by
  intro a b c hab hbc
  simp only [decide_eq_true_eq] at *
  omega

lemma bookingLe_total : ∀ a b : Booking,
    (decide (a.start_at ≤ b.start_at) || decide (b.start_at ≤ a.start_at)) =
      true := by
  intro a b
  simp only [Bool.or_eq_true, decide_eq_true_eq]
  omega

/-- C8 (amended): for every filter combination in which a provided
`resource_id` is nonzero and a provided `status` is nonempty (falsy
provided values are instead treated as absent, see the C10 theorem),
ListBookings returns exactly the bookings satisfying every provided
filter (AND semantics), ordered ascending by `start_at`; with no filters
it returns all bookings. -/
theorem getBookings_filter_sort (s : Store) (resource_id : Option Nat)
    (date_from date_to : Option Nat) (status : Option String)
    (hrid : resource_id ≠ some 0) (hst : status ≠ some "") :
    (get_bookings s resource_id date_from date_to status).Perm
      (s.bookings.filter (matchesFilters resource_id date_from date_to status)) ∧
    (get_bookings s resource_id date_from date_to status).Sorted
      (fun a b => a.start_at ≤ b.start_at) ∧
    (get_bookings s none none none none).Perm s.bookings := by
  refine ⟨?_, ?_, ?_⟩
  · rw [get_bookings_eq s resource_id date_from date_to status hrid hst]
    exact List.mergeSort_perm _ _
  · have hs := List.sorted_mergeSort bookingLe_trans bookingLe_total
      (filterByStatus status (filterByDateTo date_to (filterByDateFrom date_from
        (filterByResource resource_id s.bookings))))
    exact List.Pairwise.imp (fun h => of_decide_eq_true h) hs
  · exact List.mergeSort_perm s.bookings _

/-- Witness for C8 on a concrete store and filters. -/
theorem getBookings_filter_sort_witness :
    (get_bookings demoStoreB (some 1) none none (some "active")).Perm
      (demoStoreB.bookings.filter
        (matchesFilters (some 1) none none (some "active"))) ∧
    (get_bookings demoStoreB (some 1) none none (some "active")).Sorted
      (fun a b => a.start_at ≤ b.start_at) ∧
    (get_bookings demoStoreB none none none none).Perm demoStoreB.bookings :=
  getBookings_filter_sort demoStoreB (some 1) none none (some "active")
    (by decide) (by decide)

/-- Counterexample to C8 as stated: with the provided filter
`resource_id = 0` (or `status = ""`) the returned list still contains a
booking that does not satisfy that filter, because the falsy value
disables the filter instead of applying it. -/
theorem getBookings_falsy_counterexample :
    demoBooking ∈ get_bookings demoStoreB (some 0) none none none ∧
    matchesFilters (some 0) none none none demoBooking = false ∧
    demoBooking ∈ get_bookings demoStoreB none none none (some "") ∧
    matchesFilters none none none (some "") demoBooking = false := by
  have hb : demoStoreB.bookings = [demoBooking] := by decide
  have h1 : get_bookings demoStoreB (some 0) none none none = [demoBooking] := by
    show demoStoreB.bookings.mergeSort
      (fun a b => decide (a.start_at ≤ b.start_at)) = [demoBooking]
    rw [hb, List.mergeSort_singleton]
  have h2 : get_bookings demoStoreB none none none (some "") = [demoBooking] := by
    show demoStoreB.bookings.mergeSort
      (fun a b => decide (a.start_at ≤ b.start_at)) = [demoBooking]
    rw [hb, List.mergeSort_singleton]
  refine ⟨?_, rfl, ?_, rfl⟩
  · rw [h1]
    exact List.mem_singleton_self demoBooking
  · rw [h2]
    exact List.mem_singleton_self demoBooking

lemma cancelUpd_active (bid : Nat) (x : Booking)
    (h : (cancelUpd bid x).status = "active") : x.status = "active" := by
  unfold cancelUpd at h
  by_cases hx : x.id = bid
  · rw [if_pos hx] at h
    have h' : ("canceled" : String) = "active" := h
    exact absurd h' (by decide)
  · rw [if_neg hx] at h
    exact h

lemma activeNoOverlap_cancelUpd (bid : Nat) (a b : Booking)
    (h : activeNoOverlap a b) :
    activeNoOverlap (cancelUpd bid a) (cancelUpd bid b) := by
  intro hres hast hbst hov
  have hfa := cancelUpd_keeps_fields bid a
  have hfb := cancelUpd_keeps_fields bid b
  exact h (by rw [← hfa.2.1, ← hfb.2.1]; exact hres)
    (cancelUpd_active bid a hast) (cancelUpd_active bid b hbst)
    ⟨by rw [← hfa.2.2.2.1, ← hfb.2.2.2.2.1]; exact hov.1,
     by rw [← hfb.2.2.2.1, ← hfa.2.2.2.2.1]; exact hov.2⟩

lemma pairwise_create_resource (s : Store) (name rtype : String) (act : Bool)
    (h : s.bookings.Pairwise activeNoOverlap) :
    (create_resource s name rtype act).2.bookings.Pairwise activeNoOverlap := h

lemma pairwise_create_booking (s : Store) (now : Nat) (req : BookingCreate)
    (h : s.bookings.Pairwise activeNoOverlap) :
    (create_booking_endpoint s now req).2.bookings.Pairwise activeNoOverlap := by
  by_cases hv : check_dates req = false
  · simpa [create_booking_endpoint, hv] using h
  · rw [create_booking_endpoint, if_neg hv]
    cases hr : s.resources.find? (fun r => decide (r.id = req.resource_id)) with
    | none => simpa [create_booking, hr] using h
    | some r =>
      by_cases hact : r.is_active = false
      · simpa [create_booking, hr, hact] using h
      · cases hc : s.bookings.find? (conflictsWith req) with
        | some c => simpa [create_booking, hr, hact, hc] using h
        | none =>
          have hrw : (create_booking s now req).2.bookings =
              s.bookings ++ [⟨s.next_booking_id, req.resource_id,
                req.customer_name, req.start_at, req.end_at, "active", now⟩] := by
            simp [create_booking, hr, hact, hc]
          rw [hrw, List.pairwise_append]
          refine ⟨h, List.pairwise_singleton _ _, ?_⟩
          intro a ha b hb
          rw [List.mem_singleton] at hb
          subst hb
          intro hres hasta _ hov
          have hnc := (List.find?_eq_none.mp hc) a ha
          apply hnc
          simp only [conflictsWith, Bool.and_eq_true, decide_eq_true_eq]
          exact ⟨⟨⟨hres, hasta⟩, hov.1⟩, hov.2⟩

lemma pairwise_cancel_booking (s : Store) (bid : Nat)
    (h : s.bookings.Pairwise activeNoOverlap) :
    (cancel_booking s bid).2.bookings.Pairwise activeNoOverlap := by
  cases hf : s.bookings.find? (fun b => decide (b.id = bid)) with
  | none => simpa [cancel_booking, hf] using h
  | some b =>
    have hrw : (cancel_booking s bid).2.bookings =
        s.bookings.map (cancelUpd bid) := by
      simp [cancel_booking, hf]
    rw [hrw, List.pairwise_map]
    exact h.imp (fun hab => activeNoOverlap_cancelUpd bid _ _ hab)

lemma applyOp_pairwise (s : Store) (op : Op)
    (h : s.bookings.Pairwise activeNoOverlap) :
    (applyOp s op).bookings.Pairwise activeNoOverlap := by
  cases op with
  | createResource name rtype act => exact pairwise_create_resource s name rtype act h
  | createBooking now req => exact pairwise_create_booking s now req h
  | cancelBooking bid => exact pairwise_cancel_booking s bid h

lemma runOps_pairwise_aux (ops : List Op) :
    ∀ s : Store, s.bookings.Pairwise activeNoOverlap →
      (ops.foldl applyOp s).bookings.Pairwise activeNoOverlap := by
  induction ops with
  | nil => intro s h; exact h
  | cons op rest ih =>
    intro s h
    exact ih (applyOp s op) (applyOp_pairwise s op h)

lemma runOps_pairwise (ops : List Op) :
    (runOps ops).bookings.Pairwise activeNoOverlap :=
  runOps_pairwise_aux ops emptyStore List.Pairwise.nil

/-- C1: in every store reachable by any sequence of API calls from the
fresh database, any two bookings at distinct positions on the same
resource that are both active have non-overlapping half-open intervals. -/
theorem reachable_no_overlap (ops : List Op)
    (i j : Fin (runOps ops).bookings.length) (hne : i ≠ j)
    (hres : ((runOps ops).bookings.get i).resource_id =
      ((runOps ops).bookings.get j).resource_id)
    (hiact : ((runOps ops).bookings.get i).status = "active")
    (hjact : ((runOps ops).bookings.get j).status = "active") :
    ¬(((runOps ops).bookings.get i).start_at <
        ((runOps ops).bookings.get j).end_at ∧
      ((runOps ops).bookings.get j).start_at <
        ((runOps ops).bookings.get i).end_at) := by
  have hp := runOps_pairwise ops
  rw [List.pairwise_iff_get] at hp
  rcases lt_trichotomy i j with hij | hij | hij
  · exact hp i j hij hres hiact hjact
  · exact absurd hij hne
  · intro hov
    exact hp j i hij hres.symm hjact hiact ⟨hov.2, hov.1⟩

/-- Witness for C1 on a concrete call sequence leaving two active
bookings. -/
theorem reachable_no_overlap_witness :
    ¬(((runOps demoOps).bookings.get ⟨0, by decide⟩).start_at <
        ((runOps demoOps).bookings.get ⟨1, by decide⟩).end_at ∧
      ((runOps demoOps).bookings.get ⟨1, by decide⟩).start_at <
        ((runOps demoOps).bookings.get ⟨0, by decide⟩).end_at) :=
  reachable_no_overlap demoOps ⟨0, by decide⟩ ⟨1, by decide⟩ (by decide)
    (by decide) (by decide) (by decide)
